import Mathlib

/-!
# ALGOTEST — verification of spec claims against a shallow embedding

This development embeds the parts of the ALGOTEST code base (an LLM-driven
black-box test driver for containerized CV algorithms) that the spec's claims
talk about:

* `src/core/llm.py` — the LLM gateway (`call_zhipu_api`, `generate_zhipu_jwt`);
* `src/core/database.py` — the ORM models and `update_test_case_status`,
  `create_test_task`, `create_test_case`, `update_test_task_status`;
* `src/agents/execution_agent.py` — the Execution workflow nodes
  (`load_test_cases`, `parse_command`, `execute_command`, `save_result`,
  `execute_container_command`) and `create_execution_graph`'s conditional edge;
* `src/agents/analysis_agent.py` — `save_to_database`;
* `src/agents/select_agent.py` — the Selection workflow's label-reading loop
  (`list_label_files`, `read_label_file_contents`, `is_file_content`,
  `parse_label_files`, `build_selection_workflow`'s conditional edges);
* `src/api/routes.py` — `upload_document`.

Convention: Python functions become Lean functions.  External effects (the MCP
transport, the LLM HTTP endpoint, wall-clock time, raw-SQL row lookups) are
supplied by explicit environment records, so every function is executable on a
concrete environment.  A Python exception is an explicit `Except` error; a
`try/except` block is a `match` on the inner computation.  Dynamically typed
dictionary values are embedded at the type they actually carry at the studied
call sites.
-/

namespace Algotest

/-! ## Python-value helpers -/

/-- A raised Python exception (the constructors record which kind of exception
the source raises at the corresponding place). -/
inductive PyExc where
  | valueError (msg : String)
  | attributeError (msg : String)
  | unboundLocal (name : String)
  | integrityError (msg : String)
  | other (msg : String)
deriving Repr, DecidableEq

/-- `str(e)` as used by the `except` blocks when recording an error. -/
def PyExc.msg : PyExc → String
  | .valueError m => m
  | .attributeError m => m
  | .unboundLocal n => "cannot access local variable " ++ n
  | .integrityError m => m
  | .other m => m

/-- Python truthiness of an optional string (`None` and `""` are falsy). -/
def truthy : Option String → Bool
  | none => false
  | some s => s ≠ ""

/-- Python `a or b` on optional strings. -/
def pyOr (a b : Option String) : Option String :=
  if truthy a then a else b

/-- Python `needle in hay` on strings (substring containment), executable. -/
def strIn (needle hay : String) : Bool :=
  hay.data.tails.any (fun t => needle.data.isPrefixOf t)

/-- Python `s.startswith(p)` on strings, executable. -/
def strStarts (p s : String) : Bool := p.data.isPrefixOf s.data

/-! ## LLM gateway — `src/core/llm.py`

`call_zhipu_api` (lines 24-128): builds the request, then retries up to
`retry_count` times.  The HTTP interaction of each attempt is supplied by an
oracle `Nat → ApiOutcome` giving the outcome of attempt `i`. -/

/-- Outcome of one `requests.post` attempt, as discriminated by the source:
HTTP 200 with well-formed body, HTTP 200 with a malformed body (line 91),
non-200 status (line 93), `requests.exceptions.Timeout` (line 101),
`requests.exceptions.RequestException` (line 110), any other exception
(line 117). -/
inductive ApiOutcome where
  | ok (content : String)
  | badFormat
  | httpError
  | timeoutExc
  | requestExc (msg : String)
  | otherExc (msg : String)
deriving Repr, DecidableEq

/-- The retry-relevant configuration read at lines 75-78, with the source's
defaults (`retry_count` 3, `retry_delay` 5 s, `retry_backoff` 2.0,
`timeout` 60 s).  The backoff is a float in the source but integral at the
default, so it is carried as a `Nat`. -/
structure LlmConfig where
  retry_count : Nat := 3
  retry_delay : Nat := 5
  retry_backoff : Nat := 2
  timeout : Nat := 60
deriving Repr, DecidableEq

/-- Trace entry for one attempt of the retry loop: the timeout used by the
attempt, its outcome, and the `time.sleep` duration performed after it
(`none` when the attempt succeeded or was the last one). -/
structure AttemptLog where
  timeout : Nat
  outcome : ApiOutcome
  waitedAfter : Option Nat
deriving Repr, DecidableEq

/-- The `for attempt in range(retry_count)` loop of `call_zhipu_api`
(lines 80-123): `remaining` is the number of iterations left, `i` the attempt
index, `timeout` the current per-attempt timeout.  On a `Timeout` the next
attempt's timeout becomes `int(timeout * 1.5)` (line 106), i.e. `timeout*3/2`
in `Nat`; every failed non-final attempt sleeps `retry_delay * backoff^i`
(lines 98, 107, 114, 121).  Falling out of the loop returns the sentinel
string of line 128. -/
def call_zhipu_api_loop (env : Nat → ApiOutcome) (cfg : LlmConfig) (i timeout : Nat) :
    String × List AttemptLog :=
  if h : i < cfg.retry_count then
    match env i with
    | .ok content => (content, [⟨timeout, .ok content, none⟩])
    | .timeoutExc =>
      let timeout' := if i < cfg.retry_count - 1 then timeout * 3 / 2 else timeout
      let wait := if i < cfg.retry_count - 1 then
          some (cfg.retry_delay * cfg.retry_backoff ^ i) else none
      let r := call_zhipu_api_loop env cfg (i + 1) timeout'
      (r.1, ⟨timeout, .timeoutExc, wait⟩ :: r.2)
    | o =>
      let wait := if i < cfg.retry_count - 1 then
          some (cfg.retry_delay * cfg.retry_backoff ^ i) else none
      let r := call_zhipu_api_loop env cfg (i + 1) timeout
      (r.1, ⟨timeout, o, wait⟩ :: r.2)
  else ("API调用失败: 智谱AI API调用失败，已达到最大重试次数", [])
termination_by cfg.retry_count - i
decreasing_by
  all_goals omega

/-- `call_zhipu_api`: run the retry loop from attempt 0 with the configured
timeout.  Returns the result string together with the trace of attempts. -/
def call_zhipu_api (env : Nat → ApiOutcome) (cfg : LlmConfig) :
    String × List AttemptLog :=
  call_zhipu_api_loop env cfg 0 cfg.timeout

/-- Default trace entry for `List.getD`. -/
def dLog : AttemptLog := ⟨0, .badFormat, none⟩

/-! ## LLM gateway — `generate_zhipu_jwt` (lines 130-173)

The token is assembled from `base64.b64encode(...).replace('=', '')` pieces —
note: the *standard* alphabet (`+`, `/`), not the URL-safe one.  The
HMAC-SHA256 primitive (`hmac.new(..., hashlib.sha256).digest()`) is an
external library call and is passed in as an opaque byte function. -/

/-- The standard base64 alphabet used by `base64.b64encode`. -/
def b64Alphabet : List Char :=
  "ABCDEFGHIJKLMNOPQRSTUVWXYZabcdefghijklmnopqrstuvwxyz0123456789+/".data

/-- The URL-safe base64 alphabet (what the spec claims is used). -/
def b64UrlAlphabet : List Char :=
  "ABCDEFGHIJKLMNOPQRSTUVWXYZabcdefghijklmnopqrstuvwxyz0123456789-_".data

/-- One output character of the standard base64 encoder. -/
def b64Char (n : Nat) : Char := b64Alphabet.getD (n % 64) 'A'

/-- Standard base64 of a byte list (with `=` padding). -/
def b64Groups : List Nat → List Char
  | a :: b :: c :: rest =>
    b64Char (a / 4) :: b64Char (a % 4 * 16 + b / 16) ::
      b64Char (b % 16 * 4 + c / 64) :: b64Char (c % 64) :: b64Groups rest
  | [a, b] => [b64Char (a / 4), b64Char (a % 4 * 16 + b / 16), b64Char (b % 16 * 4), '=']
  | [a] => [b64Char (a / 4), b64Char (a % 4 * 16), '=', '=']
  | [] => []

/-- `base64.b64encode(bytes).decode('utf-8').replace('=', '')`. -/
def b64NoPad (bytes : List Nat) : String :=
  String.mk ((b64Groups bytes).filter (fun c => c ≠ '='))

/-- UTF-8 bytes of a string; all strings fed to the encoder in
`generate_zhipu_jwt` are ASCII, for which the byte sequence is the code
points. -/
def asciiBytes (s : String) : List Nat := s.data.map Char.toNat

/-- `json.dumps({"alg": "HS256", "sign_type": "SIGN"})` — `json.dumps`
renders this dict with `", "` / `": "` separators (lines 144-148). -/
def headerJson : String :=
  "\x7b\"alg\": \"HS256\", \"sign_type\": \"SIGN\"\x7d"

/-- `json.dumps({"api_key": api_id, "exp": now + exp_seconds, "timestamp":
now})` (lines 151-157), for `api_id` values containing no JSON-escaped
characters. -/
def payloadJson (api_id : String) (exp timestamp : Nat) : String :=
  "\x7b\"api_key\": \"" ++ api_id ++ "\", \"exp\": " ++ toString exp ++
    ", \"timestamp\": " ++ toString timestamp ++ "\x7d"

/-- `header_encoded` of line 148. -/
def headerEncoded : String := b64NoPad (asciiBytes headerJson)

/-- `payload_encoded` of line 157 (`now` is the UTC timestamp read at
line 151). -/
def payloadEncoded (api_id : String) (now exp_seconds : Nat) : String :=
  b64NoPad (asciiBytes (payloadJson api_id (now + exp_seconds) now))

/-- `generate_zhipu_jwt` (lines 142-170): header, payload and HMAC-SHA256
signature of `header_encoded.payload_encoded` keyed by the secret, each
standard-base64 encoded with padding stripped, joined by dots.
`hmacSha256 key msg` stands for `hmac.new(key, msg, hashlib.sha256).digest()`. -/
def generate_zhipu_jwt (hmacSha256 : List Nat → List Nat → List Nat)
    (api_id api_secret : String) (now exp_seconds : Nat) : String :=
  let payload_encoded := payloadEncoded api_id now exp_seconds
  let signature_message := headerEncoded ++ "." ++ payload_encoded
  let signature := hmacSha256 (asciiBytes api_secret) (asciiBytes signature_message)
  let signature_encoded := b64NoPad signature
  headerEncoded ++ "." ++ payload_encoded ++ "." ++ signature_encoded

/-! ## Persistence — `src/core/database.py`

The ORM models, with exactly the mapped columns of the source (lines 33-66,
68-83).  Note that `TestCase` (lines 52-66) maps only `id`, `task_id`,
`case_id`, `document_id`, `input_data`, `expected_output`, `created_at` —
there is no `status`, `actual_output`, `result_analysis`, `is_passed` or
`test_data` column.  Result data lives in the separate `TestResult` table. -/

/-- A test-case `input_data` JSON value as it occurs at the studied call
sites: either an object carrying the generated fields (`steps` is the value
of the `"steps"` key, `""` when absent), or a string on which `json.loads`
fails. -/
inductive InputDataVal where
  | obj (name description purpose steps : String)
  | malformed (raw : String)
deriving Repr, DecidableEq

/-- A test-case `expected_output` JSON value. -/
structure ExpectedOut where
  expected_result : String
  validation_method : String
deriving Repr, DecidableEq

/-- `TestTask` row (columns of lines 37-45; timestamps omitted). -/
structure TestTaskRow where
  task_id : String
  document_id : Option String := none
  requirement_doc : String := ""
  algorithm_image : Option String := none
  dataset_url : Option String := none
  status : String := "pending"
deriving Repr, DecidableEq

/-- The mapped attribute names of the `TestTask` class (lines 37-45).  The
rest of the code base also reads `TestTask.document_hash` and
`TestTask.container_name`; neither is defined on the class. -/
def testTaskColumns : List String :=
  ["id", "task_id", "document_id", "requirement_doc", "algorithm_image",
   "dataset_url", "status", "created_at", "updated_at"]

/-- `TestCase` row (columns of lines 56-62; `id`/timestamp omitted). -/
structure TestCaseRow where
  task_id : String
  case_id : String
  document_id : Option String := none
  input_data : Option InputDataVal := none
  expected_output : Option ExpectedOut := none
deriving Repr, DecidableEq

/-- `TestResult` row (columns of lines 72-79; `id`/timestamp omitted). -/
structure TestResultRow where
  task_id : String
  case_id : String
  actual_output : Option String := none
  is_passed : Bool := false
  error_message : Option String := none
  execution_time : Nat := 0
deriving Repr, DecidableEq

/-- The persistent store. -/
structure Db where
  tasks : List TestTaskRow := []
  cases : List TestCaseRow := []
  results : List TestResultRow := []
deriving Repr, DecidableEq

/-- `create_test_task` (lines 128-156): insert and commit in its own session;
a duplicate `task_id` violates the unique constraint of line 38, the session
is rolled back and the exception re-raised. -/
def create_test_task (db : Db) (task : TestTaskRow) : Except PyExc Db :=
  if db.tasks.any (fun t => t.task_id == task.task_id) then
    .error (.integrityError ("UNIQUE constraint failed: test_tasks.task_id: " ++ task.task_id))
  else
    .ok { db with tasks := db.tasks ++ [task] }

/-- `create_test_case` (lines 215-243): insert and commit in its own session;
a duplicate `case_id` violates the unique constraint of line 58, the session
is rolled back and the exception re-raised. -/
def create_test_case (db : Db) (case : TestCaseRow) : Except PyExc Db :=
  if db.cases.any (fun c => c.case_id == case.case_id) then
    .error (.integrityError ("UNIQUE constraint failed: test_cases.case_id: " ++ case.case_id))
  else
    .ok { db with cases := db.cases ++ [case] }

/-- `update_test_case_status` (lines 311-351).  The `result` parameter is
annotated `Dict` in the source but the only caller, `save_result`, passes the
raw output *string* (execution_agent line 996), so it is embedded at type
`String` (`""` when the falsy empty string is passed).  For
`status == "completed"` with a truthy `result`, evaluating
`result.get("result")` on a `str` raises `AttributeError` (lines 338, 345).
For any other status — including `"failed"` — the function writes nothing:
`TestCase` has no status column and only the `"completed"` branch touches
`TestResult`. -/
def update_test_case_status (db : Db) (case_id : Option String)
    (status : String) (result : String) : Except PyExc Db :=
  match db.cases.find? (fun c => some c.case_id == case_id) with
  | none => .ok db
  | some case =>
    if status == "completed" then
      match db.results.find? (fun r => some r.case_id == case_id) with
      | none =>
        if result ≠ "" then
          .error (.attributeError "'str' object has no attribute 'get'")
        else
          .ok { db with results := db.results ++
            [{ task_id := case.task_id, case_id := case.case_id,
               actual_output := none, is_passed := false,
               error_message := none, execution_time := 0 }] }
      | some _ =>
        if result ≠ "" then
          .error (.attributeError "'str' object has no attribute 'get'")
        else
          .ok db
    else
      .ok db

/-- `update_test_task_status` (lines 353-373): set the task's status (no-op
when the task does not exist). -/
def update_test_task_status (db : Db) (task_id status : String) : Db :=
  { db with tasks := db.tasks.map (fun t =>
      if t.task_id == task_id then { t with status := status } else t) }

/-! ## Execution workflow — `src/agents/execution_agent.py` -/

/-- A parsed command strategy (`CommandStrategy` pydantic model); only the
`command` parameter is consulted by `execute_command`. -/
structure CommandStrategy where
  tool : String
  command : Option String := none
  description : Option String := none
deriving Repr, DecidableEq

/-- `CommandStrategies` (a list wrapper). -/
structure CommandStrategies where
  strategies : List CommandStrategy
deriving Repr, DecidableEq

/-- The result dictionary returned by `execute_container_command`; fields
that the error path of lines 1438-1443 omits default to `""`/`false` as the
callers' `.get(..., "")` accesses do. -/
structure CmdResult where
  success : Bool
  error : String := ""
  full_output : String := ""
  raw_stdout : String := ""
  raw_stderr : String := ""
  is_external_output : Bool := false
  execution_time : Nat := 0
deriving Repr, DecidableEq

/-- One entry of `all_results` as built at lines 816-823. -/
structure ResultItem where
  strategy_index : Nat := 0
  strategy : Option CommandStrategy := none
  result : CmdResult
  full_output : String := ""
  raw_stdout : String := ""
  raw_stderr : String := ""
deriving Repr, DecidableEq

/-- `execution_result` as built at lines 861-869. -/
structure ExecutionResult where
  success : Bool
  all_results : List ResultItem := []
  success_count : Nat := 0
  fail_count : Nat := 0
  execution_time : Nat := 0
  raw_stdout : String := ""
  raw_stderr : String := ""
deriving Repr, DecidableEq

/-- A `test_cases` entry of the execution state: the row dictionary produced
by `load_test_cases`'s raw `SELECT *` (string keys; `case_id` and the integer
primary key `id` both rendered as optional strings), plus the
`external_output` key that API callers may add. -/
structure CaseDict where
  task_id : String := ""
  case_id : Option String := none
  id : Option String := none
  input_data : Option InputDataVal := none
  external_output : Option String := none
deriving Repr, DecidableEq

/-- `ExecutionState` (the keys the studied nodes read or write). -/
structure ExecState where
  task_id : String
  case_id : Option String := none
  test_cases : List CaseDict := []
  current_case_index : Nat := 0
  command_strategies : Option CommandStrategies := none
  current_strategy_index : Nat := 0
  execution_result : Option ExecutionResult := none
  user_output : Option String := none
  errors : List String := []
  status : String := "created"
  container_ready : Bool := false
  error : Option String := none
deriving Repr, DecidableEq

/-- What the MCP transport hands back for one `execute_command` call, *after*
the `TextContent`/"命令执行成功:"-frame unwrapping of lines 1291-1358 (which no
claim depends on): the extracted stdout, stderr, and the executor's `isError`
flag. -/
structure McpOut where
  raw_stdout : String := ""
  raw_stderr : String := ""
  isError : Bool := false
deriving Repr, DecidableEq

/-- Environment of the Execution workflow: the transport (which may raise —
the `except` of lines 1432-1443), the measured wall time, the results of the
raw-SQL lookups of `parse_command` (a `none` models a missing row or NULL
value; a failing query is caught by the same handler and is covered by the
error states proved below), and `load_test_cases`' row query. -/
structure ExecEnv where
  callTool : String → Except PyExc McpOut
  elapsedMs : Nat := 0
  containerNameRow : Option String := none
  testDataRow : String → Option String := fun _ => none
  caseRows : String → Option String → List CaseDict := fun _ _ => []
  setupOk : Bool := true
  setupErr : String := ""

/-- `full_output` as assembled at lines 1367-1370 (and line 1246 for the
external-output path, where `raw_stderr` is `""`): a `"STDOUT:\n"` heading,
the stdout, a newline, and — when stderr is non-empty — a `"STDERR:\n"`
heading followed by the stderr. -/
def full_output_of (raw_stdout raw_stderr : String) : String :=
  "STDOUT:\n" ++ raw_stdout ++ "\n" ++
    (if raw_stderr ≠ "" then "STDERR:\n" ++ raw_stderr else "")

/-- Lines 1360-1431 of `execute_container_command`: the `isError` swap
(1361-1365), `full_output` assembly (1367-1370), the return-code post-scan
(1372-1376), the error-keyword scan over stdout (1385-1394), the
non-empty-stderr check (1396-1399), and the success/failure result dicts. -/
def execute_cmd_core (s0 e0 : String) (isErr0 : Bool) : CmdResult :=
  let swap := isErr0 && e0 == "" && s0 != ""
  let s1 := if swap then "" else s0
  let e1 := if swap then s0 else e0
  let isErr1 := isErr0
  let full_output := full_output_of s1 e1
  let rcHit := strIn "返回码:" s1 || strIn "执行命令时出错" s1
  let isErr2 := if rcHit then true else isErr1
  let e2 := if rcHit && e1 == "" then s1 else e1
  let kwHit := ["脚本执行失败", "返回码:", "错误:", "Error:", "Failed:"].any
    (fun k => strIn k s1)
  let error_msg := if kwHit then s1 else ""
  let isErr3 := if kwHit then true else isErr2
  let isErr4 := if e2 != "" && error_msg == "" then true else isErr3
  let error_msg2 := if e2 != "" && error_msg == "" then e2 else error_msg
  if isErr4 then
    { success := false, error := error_msg2, full_output := full_output,
      raw_stdout := s1, raw_stderr := e2 }
  else
    { success := true, full_output := full_output,
      raw_stdout := s1, raw_stderr := e2 }

/-- `execute_container_command` (lines 1217-1443).  When a truthy
`external_output` is supplied, lines 1239-1267 return immediately with
`success=True` and `full_output = "STDOUT:\n{payload}\n"` — no transport
call, no error scan.  Otherwise the transport is consulted; a raised
exception yields the bare failure dict of lines 1438-1443. -/
def execute_container_command (env : ExecEnv) (task_id command : String)
    (external_output : Option String) : CmdResult :=
  if truthy external_output then
    let p := external_output.getD ""
    { success := true, full_output := "STDOUT:\n" ++ p ++ "\n",
      raw_stdout := p, raw_stderr := "", is_external_output := true }
  else
    match env.callTool command with
    | .error e => { success := false, error := e.msg }
    | .ok m => execute_cmd_core m.raw_stdout m.raw_stderr m.isError

/-- The error-state construction of the nodes' `except` blocks:
`{**state, "errors": state.get("errors", []) + [str(e)], "status": "error"}`. -/
def excState (st : ExecState) (e : PyExc) : ExecState :=
  { st with errors := st.errors ++ [e.msg], status := "error" }

/-- `load_test_cases` (lines 526-607), body of the `try`: query the rows (by
`case_id` when one is set, else by `task_id`); an empty result raises
`ValueError`.  On success the state gets the rows, index 0 and status
`"loaded"`. -/
def load_test_cases_body (env : ExecEnv) (st : ExecState) : Except PyExc ExecState :=
  let rows := env.caseRows st.task_id (if truthy st.case_id then st.case_id else none)
  if rows.isEmpty then
    if truthy st.case_id then
      .error (.valueError ("找不到指定的测试用例: 任务ID=" ++ st.task_id ++
        ", 用例ID=" ++ st.case_id.getD ""))
    else
      .error (.valueError ("任务 " ++ st.task_id ++ " 没有测试用例"))
  else
    .ok { st with test_cases := rows, current_case_index := 0, status := "loaded" }

/-- `load_test_cases` with its catch-all `except` (lines 601-607). -/
def load_test_cases (env : ExecEnv) (st : ExecState) : Except PyExc ExecState :=
  match load_test_cases_body env st with
  | .ok s => .ok s
  | .error e => .ok (excState st e)

/-- `parse_command`, lines 636-738, once the current case dictionary is in
hand: a falsy id (`case_id` / `id`, line 636) raises; the `input_data`
checks (lines 645-678) return error states carrying the singular `error`
key; the database lookups (lines 683-713) sit in a `try` whose handler
returns an error state with `errors` appended.  After that `try`, line 723
reads the local variable `container_name` — which is only ever assigned on
the dead lines 694-695 *after* the `raise` of line 692 — so the happy path
raises `UnboundLocalError`; everything from line 724 on is unreachable. -/
def parse_command_with_case (env : ExecEnv) (st : ExecState) (current_case : CaseDict) :
    Except PyExc ExecState :=
  if ¬ truthy (pyOr current_case.case_id current_case.id) then
    .error (.valueError "测试用例中缺少ID")
  else
    match current_case.input_data with
    | none =>
      .ok { st with status := "error", error := some "测试用例中没有input_data" }
    | some (.malformed raw) =>
      .ok { st with status := "error", error := some ("解析input_data JSON失败: " ++ raw) }
    | some (.obj _ _ _ steps) =>
      if steps = "" then
        .ok { st with status := "error", error := some "测试用例中没有测试步骤" }
      else if ¬ truthy env.containerNameRow then
        .ok (excState st (.valueError "容器名称未设置，请先设置Docker容器"))
      else if ¬ truthy (env.testDataRow ((pyOr current_case.case_id current_case.id).getD "")) then
        .ok (excState st (.valueError "测试数据路径未设置，请先设置测试数据"))
      else
        .error (.unboundLocal "container_name")

/-- `parse_command` (lines 610-738).  The guard checks of lines 626-632 raise
`ValueError` *outside* any `try` block, so these exceptions propagate to the
caller; with a case in range the rest is `parse_command_with_case`. -/
def parse_command (env : ExecEnv) (st : ExecState) : Except PyExc ExecState :=
  if st.test_cases.isEmpty then
    .error (.valueError "执行状态中没有测试用例")
  else if h : st.current_case_index < st.test_cases.length then
    parse_command_with_case env st (st.test_cases.get ⟨st.current_case_index, h⟩)
  else
    .error (.valueError "当前索引超出测试用例列表范围")

/-- `execute_command` (lines 741-879), body of the `try`: take the first
strategy (raise when none), bail out with an error status when it has no
`command` parameter, read a truthy `external_output` from the current case,
run `execute_container_command`, and build `execution_result`; when the run
failed, a truthy `state["user_output"]` (and no external output) is replayed
through `execute_container_command` and forces `success = True`
(lines 831-851).  Line 867 stores the *original* result's raw streams. -/
def execute_command_body (env : ExecEnv) (st : ExecState) : Except PyExc ExecState :=
  match st.command_strategies with
  | none => .error (.valueError "命令策略未解析或为空")
  | some cs =>
    match cs.strategies with
    | [] => .error (.valueError "命令策略未解析或为空")
    | strat :: _ =>
      if strat.command.getD "" = "" then
        .ok { st with
          execution_result := some { success := false, all_results := []
                                     success_count := 0, fail_count := 1 }
          status := "error" }
      else
        let external_output :=
          match st.test_cases.get? st.current_case_index with
          | some c => if truthy c.external_output then c.external_output else none
          | none => none
        let result0 := execute_container_command env st.task_id (strat.command.getD "") external_output
        let result := { result0 with execution_time := env.elapsedMs }
        let mkItem := fun (r : CmdResult) =>
          ({ strategy := some strat, result := r, full_output := r.full_output
             raw_stdout := r.raw_stdout, raw_stderr := r.raw_stderr } : ResultItem)
        let retry := ¬ result.success ∧ truthy st.user_output ∧ ¬ truthy external_output
        let all_results :=
          if retry then
            let new_result0 := execute_container_command env st.task_id (strat.command.getD "") st.user_output
            [mkItem { new_result0 with execution_time := env.elapsedMs }]
          else [mkItem result]
        let success := if retry then true else result.success
        .ok { st with
          execution_result := some { success := success, all_results := all_results
                                     success_count := if success then 1 else 0
                                     fail_count := if success then 0 else 1
                                     execution_time := env.elapsedMs
                                     raw_stdout := result.raw_stdout
                                     raw_stderr := result.raw_stderr }
          status := "executed" }

/-- `execute_command` with its catch-all `except` (lines 873-879). -/
def execute_command (env : ExecEnv) (st : ExecState) : Except PyExc ExecState :=
  match execute_command_body env st with
  | .ok s => .ok s
  | .error e => .ok (excState st e)

/-- `raw_output_text` as computed by `save_result` at lines 972-982: the
first result's `full_output` when non-empty; otherwise its `raw_stdout`,
with `"\n\nSTDERR:\n" + raw_stderr` appended when the stderr is non-empty;
otherwise `""`. -/
def save_raw_output_text (all_results : List ResultItem) : String :=
  match all_results.head? with
  | none => ""
  | some fr =>
    if fr.full_output ≠ "" then fr.full_output
    else if fr.raw_stdout ≠ "" then
      fr.raw_stdout ++ (if fr.raw_stderr ≠ "" then "\n\nSTDERR:\n" ++ fr.raw_stderr else "")
    else ""

/-- `result_analysis` as composed at lines 984-989. -/
def save_result_analysis (success : Bool) (error_description : String)
    (execution_time : Nat) : String :=
  "执行" ++ (if success then "成功" else "失败") ++
    (if error_description ≠ "" then "，错误原因: " ++ error_description else "") ++
    (if execution_time > 0 then "，执行耗时: " ++ toString execution_time ++ "毫秒" else "")

/-- Every state that `parse_command_with_case` *returns* (as opposed to
raising) has status `"error"`. -/
theorem parse_command_with_case_ok_status (env : ExecEnv) (st st' : ExecState)
    (c : CaseDict) (h : parse_command_with_case env st c = .ok st') :
    st'.status = "error" := by
  unfold parse_command_with_case at h
  split at h
  · simp at h
  · split at h
    · cases h; rfl
    · cases h; rfl
    · split at h
      · cases h; rfl
      · split at h
        · cases h; rfl
        · split at h
          · cases h; rfl
          · simp at h

/-- `error_description` as computed by `save_result` at lines 966-970: on a
failure with results, the first result's `error` value, else `""`. -/
def save_error_description (success : Bool) (all_results : List ResultItem) : String :=
  if ¬ success ∧ ¬ all_results.isEmpty then
    ((all_results.head?.map (fun r => r.result.error)).getD "")
  else ""

/-- `save_result`'s status lemma support: `parse_command` can only *return*
(as opposed to raise) states whose status is `"error"`. -/
theorem parse_command_ok_status (env : ExecEnv) (st st' : ExecState)
    (h : parse_command env st = .ok st') : st'.status = "error" := by
  unfold parse_command at h
  split at h
  · simp at h
  · split at h
    · exact parse_command_with_case_ok_status env st st' _ h
    · simp at h

/-- `save_result` (lines 882-1059).  Inside its catch-all `try`: raise when
`execution_result` is missing; compute `error_description`,
`raw_output_text` and `result_analysis`; write the case result through
`update_test_case_status` (a raise there is caught by the node's handler —
the write of `case.result_analysis` at lines 1000-1003 sets an attribute
that is not a mapped column of `TestCase` and changes no row).  Then the
per-case loop of lines 1007-1052: when cases remain, build an intermediate
state with `status="next_case"` and the advanced index, and *recursively*
drive `parse_command` → `execute_command` → `save_result` inside the node,
returning whatever that recursion returns; otherwise mark the task completed
and return `status="completed"`.  Any exception escaping the body is caught
at lines 1053-1059 into an error state built from the *original* `state`
(the store keeps the writes committed before the exception).

`save_result_continue` is the per-case loop decision of lines 1007-1052,
factored out. -/
def save_result_continue (env : ExecEnv) (db1 : Db) (st : ExecState) : ExecState × Db :=
  if st.current_case_index + 1 < st.test_cases.length then
    let next_state := { st with
      current_case_index := st.current_case_index + 1,
      case_id := none, command_strategies := none,
      execution_result := none, status := "next_case" }
    match hp : parse_command env next_state with
    | .error e => (excState st e, db1)
    | .ok ns =>
      if hns : ns.status = "parsed" then
        -- Lines 1028-1033 — run `execute_command` on the parsed state and
        -- recursively `save_result` its result — are unreachable:
        -- `parse_command` never returns a `"parsed"` status (its happy
        -- path raises `UnboundLocalError` at line 723, before the
        -- `"parsed"` return of line 737 can run), as proved above.
        absurd (parse_command_ok_status env next_state ns hp) (by simp [hns])
      else (ns, db1)
  else
    (({ st with status := "completed" } : ExecState),
      update_test_task_status db1 st.task_id "completed")

/-- `save_result` (lines 882-1059), assembled from the pieces above. -/
def save_result (env : ExecEnv) (db : Db) (st : ExecState) : ExecState × Db :=
  match st.execution_result with
  | none => (excState st (.valueError "执行结果为空"), db)
  | some er =>
    let error_description := save_error_description er.success er.all_results
    let raw_output_text := save_raw_output_text er.all_results
    let _result_analysis := save_result_analysis er.success error_description er.execution_time
    match update_test_case_status db st.case_id
        (if er.success then "completed" else "failed") raw_output_text with
    | .error e => (excState st e, db)
    | .ok db1 => save_result_continue env db1 st

/-- `setup_docker_for_workflow` (lines 1446-1489): `setup_algorithm_container`
itself never raises (its whole body is inside `try/except` returning a
success/error dict, lines 1062-1214), so its outcome is carried by the
environment; a failure becomes an error state, success sets
`container_ready`. -/
def setup_docker_for_workflow (env : ExecEnv) (st : ExecState) :
    Except PyExc ExecState :=
  if ¬ env.setupOk then
    .ok { st with
          errors := st.errors ++ ["设置Docker容器失败: " ++ env.setupErr]
          status := "error", container_ready := false }
  else
    .ok { st with container_ready := true, status := "container_ready" }

/-- The conditional-edge selector installed by `create_execution_graph` at
lines 1516-1523: from `save_result`, go back to `parse_command` exactly when
the returned status is `"next_case"`, else to `END`. -/
def execution_edge_selector (st : ExecState) : String :=
  if st.status == "next_case" then "parse_command" else "end"

/-! ## Selection workflow — `src/agents/select_agent.py`

The label-reading retry loop: `list_label_files` (lines 760-819),
`read_label_file_contents` (lines 821-957), the content heuristic
`is_file_content` (lines 642-670), the filename extractor
`parse_label_files` (lines 631-640), and the two conditional edges installed
by `build_selection_workflow` (lines 1135-1160).  Each sandbox command's
extracted output is supplied positionally by an oracle `reply : Nat → String`
(the shell command strings, which do not influence the state transition,
are not modelled). -/

/-- Python `s.strip()`. -/
def pyStrip (s : String) : String :=
  String.mk (((s.data.dropWhile Char.isWhitespace).reverse.dropWhile Char.isWhitespace).reverse)

/-- Split a character list at a separator (keeping empty pieces, like
Python's `str.split(sep)`). -/
def splitCharAux (c : Char) : List Char → List Char → List (List Char)
  | [], acc => [acc.reverse]
  | x :: xs, acc =>
    if x = c then acc.reverse :: splitCharAux c xs []
    else splitCharAux c xs (x :: acc)

/-- Python `s.split('\n')` (also standing in for `s.splitlines()` on
`\n`-separated text). -/
def splitNl (s : String) : List String :=
  (splitCharAux '\n' s.data []).map String.mk

/-- Python `s.endswith(suffix)`, executable. -/
def endsWithStr (suffix s : String) : Bool :=
  suffix.data.isSuffixOf s.data

/-- Python `s.lower()` for ASCII text, executable. -/
def pyLower (s : String) : String := String.mk (s.data.map Char.toLower)

/-- The last whitespace-free token of a string (what the greedy `\S+` of
`parse_label_files`' end-anchored regex captures). -/
def lastTok (t : String) : String :=
  String.mk ((t.data.reverse.takeWhile (fun c => ¬ c.isWhitespace)).reverse)

/-- `is_file_content` (lines 642-670): XML annotation markers, then JSON
annotation markers, then the "short list of filename-like lines" test, else
`len(content) > 1000`. -/
def is_file_content (content : String) : Bool :=
  if ["<annotation>", "<object>", "<name>", "<bndbox>"].any
      (fun p => strIn p content) then true
  else if ["\"bbox\":", "\"category_id\":", "\"segmentation\":"].any
      (fun p => strIn p content) then true
  else
    let lines := splitNl (pyStrip content)
    if lines.length < 20 ∧ lines.all (fun line =>
        ["Annotations", "Images", ".xml", ".json", ".txt"].any (fun p => strIn p line)) then
      false
    else
      content.length > 1000

/-- `parse_label_files` (lines 631-640): per line, `re.search` for a
`\S+`-token ending in `.xml`/`.json`/`.txt` anchored at the stripped line's
end (the greedy `\S+` needs at least one character before the extension). -/
def parse_label_files (content : String) : List String :=
  (splitNl content).filterMap (fun line =>
    let tok := lastTok (pyStrip line)
    if (endsWithStr ".xml" tok ∧ tok.length > 4) ∨
       (endsWithStr ".json" tok ∧ tok.length > 5) ∨
       (endsWithStr ".txt" tok ∧ tok.length > 4) then some tok else none)

/-- `SelectAgentState` (the keys of the label-reading loop). -/
structure SelState where
  task_id : String := ""
  dataset_url : String := ""
  label_data : String := ""
  label_files : List String := []
  label_content_ready : Bool := false
  attempt_count : Nat := 0
  errors : List String := []
  status : String := "pending"
deriving Repr, DecidableEq

/-- Environment of the Selection workflow: `reply i` is the extracted text
payload of the `i`-th sandbox command issued during the run. -/
structure SelEnv where
  reply : Nat → String

/-- `list_label_files` (lines 760-819), normal path: run the generated
listing command (one sandbox call), classify its output, parse a file list
when it is list-only, increment `attempt_count` (line 809). -/
def list_label_files (env : SelEnv) (cur : Nat) (st : SelState) : SelState × Nat :=
  let label_data := env.reply cur
  let is_content := is_file_content label_data
  let label_files := if ¬ is_content then parse_label_files label_data else []
  ({ st with
     label_data := label_data
     label_files := label_files
     label_content_ready := is_content
     attempt_count := st.attempt_count + 1
     status := if ¬ is_content then "label_files_ready" else "label_content_ready" },
   cur + 1)

/-- The normal return of `read_label_file_contents` (lines 943-949): keep the
read contents as `label_data` only when the heuristic accepted them, set
`label_content_ready`, increment `attempt_count`, and set the status. -/
def read_contents_result (st : SelState) (file_contents : String) (is_content : Bool) :
    SelState :=
  { st with
    label_data := if is_content then file_contents else st.label_data
    label_content_ready := is_content
    attempt_count := st.attempt_count + 1
    status := if is_content then "label_content_ready" else "label_content_failed" }

/-- `read_label_file_contents` (lines 821-957).  An empty `label_files` list
raises `ValueError` at line 829, caught by the node's handler (lines 950-957)
into an error state — with `attempt_count` *unchanged*.  Otherwise: a `find`
call, a `cat` call; when the content is short or unreadable (line 882) a
`find`-all call and — if it returned paths — a `cat`-all call; when the
heuristic still fails (line 910) one final `find|xargs cat` call.  The normal
return (lines 943-949) increments `attempt_count` and sets
`label_content_ready` / `status` from the heuristic. -/
def read_label_file_contents (env : SelEnv) (cur : Nat) (st : SelState) :
    SelState × Nat :=
  if st.label_files.isEmpty then
    ({ st with
       errors := st.errors ++ ["读取标签文件内容失败: 未找到标签文件"]
       status := "error" }, cur)
  else
    let _find_output := env.reply cur
    let file_contents0 := env.reply (cur + 1)
    let retryNeeded := file_contents0.length < 10 || strIn "无法读取文件" file_contents0
    let all_paths := if retryNeeded then env.reply (cur + 2) else ""
    let catAll := retryNeeded && all_paths != ""
    let file_contents1 := if catAll then env.reply (cur + 3) else file_contents0
    let cur1 := if catAll then cur + 4 else if retryNeeded then cur + 3 else cur + 2
    let is_content1 := is_file_content file_contents1
    let file_contents2 := if is_content1 then file_contents1 else env.reply cur1
    let cur2 := if is_content1 then cur1 else cur1 + 1
    let is_content2 := if is_content1 then true else is_file_content file_contents2
    (read_contents_result st file_contents2 is_content2, cur2)

/-- The conditional edge out of `list_label_files` (lines 1135-1146). -/
def selection_edge_from_list (st : SelState) : String :=
  if ¬ st.label_content_ready ∧ st.attempt_count < 3 then "read_label_file_contents"
  else if st.label_content_ready then "get_test_cases"
  else "END"

/-- The conditional edge out of `read_label_file_contents` (lines 1149-1160). -/
def selection_edge_from_read (st : SelState) : String :=
  if st.label_content_ready then "get_test_cases"
  else if 3 ≤ st.attempt_count then "END"
  else "read_label_file_contents"

/-- The engine's behaviour from the `read_label_file_contents` node: run the
node, follow its conditional edge, loop while it points back to the node.
`fuel` bounds the simulation (the loop itself need not terminate); the third
component counts how many times the node executed. -/
def run_read_loop (env : SelEnv) : Nat → Nat → SelState → SelState × Nat × Nat
  | 0, cur, st => (st, cur, 0)
  | fuel + 1, cur, st =>
    if selection_edge_from_read (read_label_file_contents env cur st).1 =
        "read_label_file_contents" then
      ((run_read_loop env fuel (read_label_file_contents env cur st).2
          (read_label_file_contents env cur st).1).1,
       (run_read_loop env fuel (read_label_file_contents env cur st).2
          (read_label_file_contents env cur st).1).2.1,
       (run_read_loop env fuel (read_label_file_contents env cur st).2
          (read_label_file_contents env cur st).1).2.2 + 1)
    else ((read_label_file_contents env cur st).1, (read_label_file_contents env cur st).2, 1)

/-! ## Analysis workflow — `src/agents/analysis_agent.py`, `save_to_database`
(lines 344-406). -/

/-- A generated test case as parsed by `generate_test_cases`. -/
structure GenCase where
  id : String
  name : String := ""
  description : String := ""
  purpose : String := ""
  steps : String := ""
  expected_result : String := ""
  validation_method : String := ""
deriving Repr, DecidableEq

/-- `AnalysisState` (the keys `save_to_database` reads). -/
structure AnalysisState where
  task_id : String
  pdf_content : Option String := none
  algorithm_image : Option String := none
  test_cases : List GenCase := []
  errors : List String := []
  status : String := "created"
deriving Repr, DecidableEq

/-- The `case_data` dictionary built at lines 377-390. -/
def analysis_case_row (task_id : String) (c : GenCase) : TestCaseRow :=
  { task_id := task_id, case_id := c.id
    input_data := some (.obj c.name c.description c.purpose c.steps)
    expected_output := some ⟨c.expected_result, c.validation_method⟩ }

/-- The `for case in test_cases` loop of lines 376-391: each
`create_test_case` commits in its own session; the first failure aborts the
loop with the raised exception, and the rows already committed stay. -/
def insert_cases (db : Db) (task_id : String) : List GenCase → Db × Option PyExc
  | [] => (db, none)
  | c :: rest =>
    match create_test_case db (analysis_case_row task_id c) with
    | .error e => (db, some e)
    | .ok db' => insert_cases db' task_id rest

/-- `save_to_database` (lines 344-406).  The `with get_db() as db:` session of
line 371 is opened but never passed on: `create_test_task` (line 373) and
each `create_test_case` (line 391) open their *own* sessions and commit
independently.  Any raise is caught at lines 400-406 into an error state —
with everything committed before it still in the store. -/
def save_to_database (db : Db) (st : AnalysisState) : AnalysisState × Db :=
  if st.test_cases.isEmpty then
    ({ st with errors := st.errors ++ ["测试用例为空"], status := "error" }, db)
  else
    match create_test_task db
        { task_id := st.task_id, requirement_doc := st.pdf_content.getD ""
          algorithm_image := st.algorithm_image, status := "created" } with
    | .error e => ({ st with errors := st.errors ++ [e.msg], status := "error" }, db)
    | .ok db1 =>
      match insert_cases db1 st.task_id st.test_cases with
      | (db2, some e) => ({ st with errors := st.errors ++ [e.msg], status := "error" }, db2)
      | (db2, none) => ({ st with status := "saved" }, db2)

/-! ## HTTP façade — `src/api/routes.py`, `upload_document` (lines 100-191). -/

/-- The success payload of the upload endpoint. -/
structure UploadOk where
  message : String
  document_id : String
  filename : String
  file_path : String
deriving Repr, DecidableEq

/-- `upload_document` (lines 100-191): reject non-PDF filenames with HTTP
400; hash the content (`hashlib.md5`, supplied as an opaque function); then
line 136 builds the dedup query `db.query(TestTask).filter(
TestTask.document_hash == file_hash)` — but the `TestTask` class maps only
`testTaskColumns`, so the attribute lookup raises `AttributeError`, which the
handler of lines 187-191 turns into an HTTP 500 after rolling back; no row is
read or written.  (The module is in fact never importable at all: line 33 of
`routes.py` imports `update_task_container_name` from `core.database`, which
does not define it.) -/
def upload_document (md5Hex : List Nat → String) (db : Db)
    (filename : String) (content : List Nat) : Except (Nat × String) (UploadOk × Db) :=
  if ¬ endsWithStr ".pdf" (pyLower filename) then
    .error (400, "只支持PDF格式的需求文档")
  else
    let _file_hash := md5Hex content
    if hcol : "document_hash" ∈ testTaskColumns then
      absurd hcol (by decide)
    else
      .error (500, "文档上传异常: type object 'TestTask' has no attribute 'document_hash'")

/-! ## Theorems for the claims -/

/-- The base64 character function always lands in the standard alphabet. -/
theorem b64Char_mem (n : Nat) : b64Char n ∈ b64Alphabet := by
  have h64 : n % 64 < 64 := Nat.mod_lt _ (by decide)
  have h : n % 64 < b64Alphabet.length := by
    have hl : b64Alphabet.length = 64 := by decide
    omega
  rw [b64Char, List.getD_eq_get _ _ h]
  exact List.get_mem _ _ _

/-- Every character the base64 encoder can emit is in the standard alphabet
or is the padding character. -/
theorem b64Groups_chars (bs : List Nat) :
    ∀ c ∈ b64Groups bs, c ∈ b64Alphabet ∨ c = '=' := by
  match bs with
  | [] => simp [b64Groups]
  | [a] =>
    intro c hc
    simp only [b64Groups, List.mem_cons, List.not_mem_nil, or_false] at hc
    rcases hc with h | h | h | h <;> simp [h, b64Char_mem]
  | [a, b] =>
    intro c hc
    simp only [b64Groups, List.mem_cons, List.not_mem_nil, or_false] at hc
    rcases hc with h | h | h | h <;> simp [h, b64Char_mem]
  | a :: b :: c' :: rest =>
    intro c hc
    simp only [b64Groups, List.mem_cons] at hc
    rcases hc with h | h | h | h | h
    · simp [h, b64Char_mem]
    · simp [h, b64Char_mem]
    · simp [h, b64Char_mem]
    · simp [h, b64Char_mem]
    · exact b64Groups_chars rest c h

/-- Characters of a `b64NoPad` output lie in the standard base64 alphabet —
in particular they are never `.`, `=`, `-` or `_`. -/
theorem b64NoPad_chars (bs : List Nat) :
    ∀ c ∈ (b64NoPad bs).data, c ∈ b64Alphabet ∧ c ≠ '.' ∧ c ≠ '=' := by
  intro c hc
  simp only [b64NoPad, List.mem_filter] at hc
  rcases hc with ⟨hmem, hne⟩
  rcases b64Groups_chars bs c hmem with h | h
  · refine ⟨h, ?_, by simpa using hne⟩
    intro hdot
    rw [hdot] at h
    exact absurd h (by decide)
  · simp [h] at hne

/-- C9 (corrected): the token is the dot-joined concatenation of the
base64-without-padding encodings of the fixed header JSON, the payload JSON
`{api_key, exp, timestamp}`, and the HMAC-SHA256 of
`header_encoded.payload_encoded` keyed by the secret — but in the *standard*
base64 alphabet (`+`/`/`), not the URL-safe one the claim states; the parts
never contain `.` or `=`, so the dot-decomposition is unambiguous. -/
theorem C9_jwt_scheme_amended (hmacSha256 : List Nat → List Nat → List Nat)
    (api_id api_secret : String) (now exp_seconds : Nat) :
    generate_zhipu_jwt hmacSha256 api_id api_secret now exp_seconds =
      b64NoPad (asciiBytes headerJson) ++ "." ++
      b64NoPad (asciiBytes (payloadJson api_id (now + exp_seconds) now)) ++ "." ++
      b64NoPad (hmacSha256 (asciiBytes api_secret)
        (asciiBytes (headerEncoded ++ "." ++ payloadEncoded api_id now exp_seconds))) ∧
    (∀ bs : List Nat, ∀ c ∈ (b64NoPad bs).data, c ∈ b64Alphabet ∧ c ≠ '.' ∧ c ≠ '=') := by
  exact ⟨rfl, b64NoPad_chars⟩

/-- C9 witness: the amended scheme at a concrete input (an instance of the
token equation, and the alphabet fact for the encoding of `[0, 63]`). -/
theorem C9_jwt_scheme_amended_witness :
    (generate_zhipu_jwt (fun _ _ => [0, 63]) "id7" "sec" 11 3600 =
      b64NoPad (asciiBytes headerJson) ++ "." ++
      b64NoPad (asciiBytes (payloadJson "id7" (11 + 3600) 11)) ++ "." ++
      b64NoPad ((fun _ _ => [0, 63]) (asciiBytes "sec")
        (asciiBytes (headerEncoded ++ "." ++ payloadEncoded "id7" 11 3600)))) ∧
    ('A' ∈ (b64NoPad [0, 63]).data → 'A' ∈ b64Alphabet ∧ 'A' ≠ '.' ∧ 'A' ≠ '=') := by
  exact ⟨(C9_jwt_scheme_amended (fun _ _ => [0, 63]) "id7" "sec" 11 3600).1,
    (C9_jwt_scheme_amended (fun _ _ => [0, 63]) "id7" "sec" 11 3600).2 [0, 63] 'A'⟩

/-- The retry loop from attempt `i` performs at most `retry_count - i` attempts. -/
theorem loop_len_le (env : Nat → ApiOutcome) (cfg : LlmConfig) (i t : Nat) :
    (call_zhipu_api_loop env cfg i t).2.length ≤ cfg.retry_count - i := by
  induction i, t using call_zhipu_api_loop.induct env cfg with
  | case1 i t h content henv =>
      rw [call_zhipu_api_loop]; simp [h, henv]; omega
  | case2 i t h henv t' ih =>
      rw [call_zhipu_api_loop]
      simp [h, henv]
      unfold t' at ih
      simp only [dite_eq_ite] at ih
      omega
  | case3 i t h hok hto ih =>
      rw [call_zhipu_api_loop]
      cases henv : env i with
      | ok c => exact absurd henv (by intro hh; exact hok c hh)
      | timeoutExc => exact absurd henv (by intro hh; exact hto hh)
      | badFormat => simp [h, henv]; omega
      | httpError => simp [h, henv]; omega
      | requestExc m => simp [h, henv]; omega
      | otherExc m => simp [h, henv]; omega
  | case4 i t h =>
      rw [call_zhipu_api_loop]; simp [h]

/-- A loop entered below the attempt cap performs at least one attempt. -/
theorem loop_len_pos (env : Nat → ApiOutcome) (cfg : LlmConfig) (i t : Nat)
    (h : i < cfg.retry_count) : 1 ≤ (call_zhipu_api_loop env cfg i t).2.length := by
  rw [call_zhipu_api_loop]
  cases henv : env i <;> simp [h, henv]

/-- The first attempt of the loop uses the timeout it was entered with. -/
theorem loop_head_timeout (env : Nat → ApiOutcome) (cfg : LlmConfig) (i t : Nat)
    (h : i < cfg.retry_count) :
    (((call_zhipu_api_loop env cfg i t).2.getD 0 ⟨0, .badFormat, none⟩)).timeout = t := by
  rw [call_zhipu_api_loop]
  cases henv : env i <;> simp [h, henv]

/-- A loop entered at or above the attempt cap performs no attempt. -/
theorem loop_nil (env : Nat → ApiOutcome) (cfg : LlmConfig) (i t : Nat)
    (h : ¬ i < cfg.retry_count) : (call_zhipu_api_loop env cfg i t).2 = [] := by
  rw [call_zhipu_api_loop]; simp [h]

/-- One failed attempt prepended to a continuation trace keeps the sleep
schedule `retry_delay * backoff^attempt`, sleeping exactly when a further
attempt follows. -/
theorem waits_step (env : Nat → ApiOutcome) (cfg : LlmConfig) (i targ : Nat) (e : AttemptLog)
    (h : i < cfg.retry_count)
    (he : e.waitedAfter = if i < cfg.retry_count - 1 then
        some (cfg.retry_delay * cfg.retry_backoff ^ i) else none)
    (ih : ∀ k < (call_zhipu_api_loop env cfg (i + 1) targ).2.length,
      ((call_zhipu_api_loop env cfg (i + 1) targ).2.getD k ⟨0, .badFormat, none⟩).waitedAfter =
        if k + 1 < (call_zhipu_api_loop env cfg (i + 1) targ).2.length then
          some (cfg.retry_delay * cfg.retry_backoff ^ (i + 1 + k)) else none) :
    ∀ k < (e :: (call_zhipu_api_loop env cfg (i + 1) targ).2).length,
      ((e :: (call_zhipu_api_loop env cfg (i + 1) targ).2).getD k ⟨0, .badFormat, none⟩).waitedAfter =
        if k + 1 < (e :: (call_zhipu_api_loop env cfg (i + 1) targ).2).length then
          some (cfg.retry_delay * cfg.retry_backoff ^ (i + k)) else none := by
  intro k hk
  match k with
  | 0 =>
    simp only [List.getD_cons_zero, List.length_cons, Nat.add_zero]
    by_cases hlast : i < cfg.retry_count - 1
    · have hpos : 1 ≤ (call_zhipu_api_loop env cfg (i + 1) targ).2.length :=
        loop_len_pos env cfg (i + 1) targ (by omega)
      rw [he, if_pos hlast, if_pos (by omega)]
    · have hz : (call_zhipu_api_loop env cfg (i + 1) targ).2 = [] :=
        loop_nil env cfg (i + 1) targ (by omega)
      rw [he, if_neg hlast, hz]
      simp
  | k + 1 =>
    simp only [List.getD_cons_succ, List.length_cons] at hk ⊢
    rw [ih k (by omega)]
    have harith : i + 1 + k = i + (k + 1) := by omega
    rw [harith]
    have : k + 1 + 1 < (call_zhipu_api_loop env cfg (i + 1) targ).2.length + 1 ↔
        k + 1 < (call_zhipu_api_loop env cfg (i + 1) targ).2.length := by omega
    simp [this]

/-- Sleep schedule of the retry loop: after the `k`-th logged attempt the
loop sleeps `retry_delay * backoff^(i+k)` seconds exactly when another
attempt follows, and never after the final one. -/
theorem loop_waits (env : Nat → ApiOutcome) (cfg : LlmConfig) (i t : Nat) :
    ∀ k, k < (call_zhipu_api_loop env cfg i t).2.length →
      ((call_zhipu_api_loop env cfg i t).2.getD k ⟨0, .badFormat, none⟩).waitedAfter =
        if k + 1 < (call_zhipu_api_loop env cfg i t).2.length then
          some (cfg.retry_delay * cfg.retry_backoff ^ (i + k)) else none := by
  induction i, t using call_zhipu_api_loop.induct env cfg with
  | case1 i t h content henv =>
      rw [call_zhipu_api_loop]
      simp [h, henv]
  | case2 i t h henv t' ih =>
      unfold t' at ih
      simp only [dite_eq_ite] at ih
      rw [call_zhipu_api_loop]
      simp only [dif_pos h, henv]
      exact waits_step env cfg i _ _ h rfl ih
  | case3 i t h hok hto ih =>
      rw [call_zhipu_api_loop]
      cases henv : env i with
      | ok c => exact absurd henv (by intro hh; exact hok c hh)
      | timeoutExc => exact absurd henv (by intro hh; exact hto hh)
      | badFormat =>
          simp only [dif_pos h, henv]
          exact waits_step env cfg i _ _ h rfl ih
      | httpError =>
          simp only [dif_pos h, henv]
          exact waits_step env cfg i _ _ h rfl ih
      | requestExc m =>
          simp only [dif_pos h, henv]
          exact waits_step env cfg i _ _ h rfl ih
      | otherExc m =>
          simp only [dif_pos h, henv]
          exact waits_step env cfg i _ _ h rfl ih
  | case4 i t h =>
      rw [call_zhipu_api_loop]
      simp [h]

/-- One attempt prepended to a continuation trace keeps the timeout step
relation, provided the continuation was entered with the escalated timeout. -/
theorem esc_step (env : Nat → ApiOutcome) (cfg : LlmConfig) (i targ : Nat) (e : AttemptLog)
    (htarg : i + 1 < cfg.retry_count →
      targ = if e.outcome = .timeoutExc then e.timeout * 3 / 2 else e.timeout)
    (ih : ∀ k, k + 1 < (call_zhipu_api_loop env cfg (i + 1) targ).2.length →
      (((call_zhipu_api_loop env cfg (i + 1) targ).2.getD (k + 1) ⟨0, .badFormat, none⟩)).timeout =
        if ((call_zhipu_api_loop env cfg (i + 1) targ).2.getD k ⟨0, .badFormat, none⟩).outcome
            = .timeoutExc then
          ((call_zhipu_api_loop env cfg (i + 1) targ).2.getD k ⟨0, .badFormat, none⟩).timeout * 3 / 2
        else ((call_zhipu_api_loop env cfg (i + 1) targ).2.getD k ⟨0, .badFormat, none⟩).timeout) :
    ∀ k, k + 1 < (e :: (call_zhipu_api_loop env cfg (i + 1) targ).2).length →
      (((e :: (call_zhipu_api_loop env cfg (i + 1) targ).2).getD (k + 1) ⟨0, .badFormat, none⟩)).timeout =
        if ((e :: (call_zhipu_api_loop env cfg (i + 1) targ).2).getD k ⟨0, .badFormat, none⟩).outcome
            = .timeoutExc then
          ((e :: (call_zhipu_api_loop env cfg (i + 1) targ).2).getD k ⟨0, .badFormat, none⟩).timeout * 3 / 2
        else ((e :: (call_zhipu_api_loop env cfg (i + 1) targ).2).getD k ⟨0, .badFormat, none⟩).timeout := by
  intro k hk
  match k with
  | 0 =>
    simp only [List.getD_cons_zero, List.getD_cons_succ, List.length_cons] at hk ⊢
    have hne : (call_zhipu_api_loop env cfg (i + 1) targ).2 ≠ [] := by
      intro hnil; rw [hnil] at hk; simp at hk
    have hent : i + 1 < cfg.retry_count := by
      by_contra hc
      exact hne (loop_nil env cfg (i + 1) targ hc)
    rw [loop_head_timeout env cfg (i + 1) targ hent]
    exact htarg hent
  | k + 1 =>
    simp only [List.getD_cons_succ, List.length_cons] at hk ⊢
    exact ih k (by omega)

/-- Timeout escalation of the retry loop: each next attempt timeout is
`int(previous * 1.5)` after a `Timeout`, and unchanged after any other
failure. -/
theorem loop_escalation (env : Nat → ApiOutcome) (cfg : LlmConfig) (i t : Nat) :
    ∀ k, k + 1 < (call_zhipu_api_loop env cfg i t).2.length →
      (((call_zhipu_api_loop env cfg i t).2.getD (k + 1) ⟨0, .badFormat, none⟩)).timeout =
        if ((call_zhipu_api_loop env cfg i t).2.getD k ⟨0, .badFormat, none⟩).outcome
            = .timeoutExc then
          ((call_zhipu_api_loop env cfg i t).2.getD k ⟨0, .badFormat, none⟩).timeout * 3 / 2
        else ((call_zhipu_api_loop env cfg i t).2.getD k ⟨0, .badFormat, none⟩).timeout := by
  induction i, t using call_zhipu_api_loop.induct env cfg with
  | case1 i t h content henv =>
      rw [call_zhipu_api_loop]
      simp [h, henv]
  | case2 i t h henv t' ih =>
      unfold t' at ih
      simp only [dite_eq_ite] at ih
      rw [call_zhipu_api_loop]
      simp only [dif_pos h, henv]
      exact esc_step env cfg i _ _ (fun hent => by simp [show i < cfg.retry_count - 1 by omega]) ih
  | case3 i t h hok hto ih =>
      rw [call_zhipu_api_loop]
      cases henv : env i with
      | ok c => exact absurd henv (by intro hh; exact hok c hh)
      | timeoutExc => exact absurd henv (by intro hh; exact hto hh)
      | badFormat =>
          simp only [dif_pos h, henv]
          exact esc_step env cfg i _ _ (fun hent => by simp) ih
      | httpError =>
          simp only [dif_pos h, henv]
          exact esc_step env cfg i _ _ (fun hent => by simp) ih
      | requestExc m =>
          simp only [dif_pos h, henv]
          exact esc_step env cfg i _ _ (fun hent => by simp) ih
      | otherExc m =>
          simp only [dif_pos h, henv]
          exact esc_step env cfg i _ _ (fun hent => by simp) ih
  | case4 i t h =>
      rw [call_zhipu_api_loop]
      simp [h]

/-- When no attempt returns content, the loop falls through to the sentinel
string — it returns rather than raising. -/
theorem loop_exhaust (env : Nat → ApiOutcome) (cfg : LlmConfig) (i t : Nat)
    (hfail : ∀ j c, env j ≠ .ok c) :
    strStarts "API调用失败:" (call_zhipu_api_loop env cfg i t).1 = true := by
  induction i, t using call_zhipu_api_loop.induct env cfg with
  | case1 i t h content henv => exact absurd henv (hfail i content)
  | case2 i t h henv t' ih =>
      rw [call_zhipu_api_loop]
      simp only [dif_pos h, henv]
      exact ih
  | case3 i t h hok hto ih =>
      rw [call_zhipu_api_loop]
      cases henv : env i with
      | ok c => exact absurd henv (by intro hh; exact hok c hh)
      | timeoutExc => exact absurd henv (by intro hh; exact hto hh)
      | badFormat => simp only [dif_pos h, henv]; exact ih
      | httpError => simp only [dif_pos h, henv]; exact ih
      | requestExc m => simp only [dif_pos h, henv]; exact ih
      | otherExc m => simp only [dif_pos h, henv]; exact ih
  | case4 i t h =>
      rw [call_zhipu_api_loop]
      simp [h]
      decide

/-- Under repeated timeouts with the default configuration the per-attempt
timeouts are exactly 60, 90, 135 — each subsequent one exactly 1.5 times the
previous. -/
theorem call_default_timeout_values (env : Nat → ApiOutcome)
    (hto : ∀ i, env i = .timeoutExc) :
    (call_zhipu_api env {}).2.map (fun l => l.timeout) = [60, 90, 135] := by
  have e0 := hto 0
  have e1 := hto 1
  have e2 := hto 2
  simp [call_zhipu_api, call_zhipu_api_loop, e0, e1, e2]

/-- C8 (confirmed): with the default configuration, `call_zhipu_api` makes at
most 3 attempts (and at least one), the first with the 60 s timeout; after a
timeout the next attempt's timeout is `int(previous * 1.5)` (under repeated
timeouts exactly 60, 90, 135 — each exactly 1.5 x the previous), after other
failures it is unchanged; each failed non-final attempt sleeps `5 * 2^k`
seconds; and when every attempt fails the call *returns* (does not raise) a
string beginning with "API调用失败:". -/
theorem C8_llm_retry_policy (env : Nat → ApiOutcome) :
    (call_zhipu_api env {}).2.length ≤ 3 ∧
    1 ≤ (call_zhipu_api env {}).2.length ∧
    ((call_zhipu_api env {}).2.getD 0 dLog).timeout = 60 ∧
    (∀ k, k + 1 < (call_zhipu_api env {}).2.length →
      ((call_zhipu_api env {}).2.getD (k + 1) dLog).timeout =
        if ((call_zhipu_api env {}).2.getD k dLog).outcome = .timeoutExc then
          ((call_zhipu_api env {}).2.getD k dLog).timeout * 3 / 2
        else ((call_zhipu_api env {}).2.getD k dLog).timeout) ∧
    (∀ k, k < (call_zhipu_api env {}).2.length →
      ((call_zhipu_api env {}).2.getD k dLog).waitedAfter =
        if k + 1 < (call_zhipu_api env {}).2.length then some (5 * 2 ^ k) else none) ∧
    ((∀ i, env i = .timeoutExc) →
      (call_zhipu_api env {}).2.map (fun l => l.timeout) = [60, 90, 135]) ∧
    ((∀ j c, env j ≠ .ok c) → strStarts "API调用失败:" (call_zhipu_api env {}).1 = true) := by
  refine ⟨?_, ?_, ?_, ?_, ?_, ?_, ?_⟩
  · have h := loop_len_le env {} 0 ({} : LlmConfig).timeout
    simpa using h
  · exact loop_len_pos env {} 0 ({} : LlmConfig).timeout (by decide)
  · exact loop_head_timeout env {} 0 ({} : LlmConfig).timeout (by decide)
  · intro k hk
    exact loop_escalation env {} 0 ({} : LlmConfig).timeout k hk
  · intro k hk
    have h := loop_waits env {} 0 ({} : LlmConfig).timeout k hk
    simpa using h
  · exact call_default_timeout_values env
  · intro hf
    exact loop_exhaust env {} 0 ({} : LlmConfig).timeout hf

/-- C9 counterexample: for `api_id = "a?"` (and `now = 0`), the payload
component of the token contains `/`, which is not a URL-safe-alphabet
character — so the claim that all three parts are encoded with the URL-safe
alphabet is false (the source uses `base64.b64encode`, the standard
alphabet). -/
theorem C9_jwt_not_urlsafe_counterexample :
    generate_zhipu_jwt (fun _ _ => []) "a?" "sec" 0 3600 =
      headerEncoded ++ "." ++ payloadEncoded "a?" 0 3600 ++ "." ++ b64NoPad [] ∧
    '/' ∈ (payloadEncoded "a?" 0 3600).data ∧
    '/' ∉ b64UrlAlphabet := by
  refine ⟨rfl, by decide, by decide⟩

/-- String concatenation concatenates the character data. -/
theorem str_data_append (a b : String) : (a ++ b).data = a.data ++ b.data := rfl

/-- A list is a (boolean) prefix of itself followed by anything. -/
theorem isPrefixOf_append (p rest : List Char) : p.isPrefixOf (p ++ rest) = true := by
  induction p with
  | nil => cases rest <;> rfl
  | cons a as ih => simp [List.isPrefixOf, ih]

/-- C1 (corrected): the output text composed by `execute_container_command`
and stored by `save_result` preserves the stdout byte-for-byte and untruncated
— but wrapped: it starts with the heading `"STDOUT:\n"` (the claim says no
such prefix is added), and a non-empty stderr follows after `"STDERR:\n"`
preceded by the single newline that closes the stdout section (so the
claimed `"\n\nSTDERR:\n"` separator is wrong), and `save_result` passes a
non-empty `full_output` through verbatim. -/
theorem C1_output_preservation_amended (s e : String) :
    full_output_of s e =
      "STDOUT:\n" ++ s ++ "\n" ++ (if e ≠ "" then "STDERR:\n" ++ e else "") ∧
    strStarts "STDOUT:\n" (full_output_of s e) = true ∧
    (∃ pre post, (full_output_of s e).data = pre ++ s.data ++ post) ∧
    (e ≠ "" → full_output_of s e = "STDOUT:\n" ++ s ++ "\nSTDERR:\n" ++ e) ∧
    (∀ item : ResultItem, item.full_output ≠ "" →
      save_raw_output_text [item] = item.full_output) := by
  refine ⟨rfl, ?_, ?_, ?_, ?_⟩
  · have : (full_output_of s e).data =
        "STDOUT:\n".data ++ (s ++ "\n" ++ (if e ≠ "" then "STDERR:\n" ++ e else "")).data := by
      simp [full_output_of, str_data_append, List.append_assoc]
    simp only [strStarts, this]
    exact isPrefixOf_append _ _
  · refine ⟨"STDOUT:\n".data, ("\n" ++ (if e ≠ "" then "STDERR:\n" ++ e else "")).data, ?_⟩
    simp [full_output_of, str_data_append, List.append_assoc]
  · intro he
    apply String.ext
    simp [full_output_of, he, str_data_append, List.append_assoc]
  · intro item hne
    simp [save_raw_output_text, hne]

/-- C1 counterexample: an execution with stdout `"out"` and stderr `"err"`
yields the stored text `"STDOUT:\nout\nSTDERR:\nerr"`: the `"STDOUT:"` prefix
the claim denies is there, and the exact separator `"\n\nSTDERR:\n"` the claim
asserts does not occur in it. -/
theorem C1_output_format_counterexample :
    (execute_container_command { callTool := fun _ => .ok { raw_stdout := "out", raw_stderr := "err" } }
        "T1" "cmd" none).full_output = "STDOUT:\nout\nSTDERR:\nerr" ∧
    save_raw_output_text
        [{ result := { success := false }, full_output := "STDOUT:\nout\nSTDERR:\nerr" }] =
      "STDOUT:\nout\nSTDERR:\nerr" ∧
    strStarts "STDOUT:" "STDOUT:\nout\nSTDERR:\nerr" = true ∧
    strIn "\n\nSTDERR:\n" "STDOUT:\nout\nSTDERR:\nerr" = false := by
  refine ⟨rfl, rfl, by decide, by decide⟩

/-- C10 (confirmed): a truthy external output payload short-circuits
`execute_container_command`: the result is reported successful
unconditionally, `full_output` is just the payload under the `"STDOUT:\n"`
heading, the external flag is set, and the result does not depend on the
transport environment at all (no command is executed, no error-marker scan
of lines 1385-1399 is applied — even a payload full of error markers yields
`success = true`). -/
theorem C10_external_output_override (env env' : ExecEnv) (task_id command p : String)
    (hp : p ≠ "") :
    (execute_container_command env task_id command (some p)).success = true ∧
    (execute_container_command env task_id command (some p)).full_output =
      "STDOUT:\n" ++ p ++ "\n" ∧
    (execute_container_command env task_id command (some p)).is_external_output = true ∧
    execute_container_command env task_id command (some p) =
      execute_container_command env' task_id command (some p) := by
  have ht : truthy (some p) = true := by simp [truthy, hp]
  unfold execute_container_command
  rw [ht]
  simp

/-- C10 witness: a replayed payload that contains both `"Error:"` and
`"返回码:"` error markers is still recorded as a successful execution. -/
theorem C10_external_output_override_witness :
    (execute_container_command { callTool := fun _ => .ok {} } "T1" "cmd"
        (some "Error: 返回码: 2")).success = true ∧
    (execute_container_command { callTool := fun _ => .ok {} } "T1" "cmd"
        (some "Error: 返回码: 2")).full_output = "STDOUT:\n" ++ "Error: 返回码: 2" ++ "\n" := by
  exact ⟨(C10_external_output_override { callTool := fun _ => .ok {} }
      { callTool := fun _ => .error (.other "down") } "T1" "cmd" "Error: 返回码: 2"
      (by decide)).1,
    (C10_external_output_override { callTool := fun _ => .ok {} }
      { callTool := fun _ => .error (.other "down") } "T1" "cmd" "Error: 返回码: 2"
      (by decide)).2.1⟩

/-- C2 (corrected): the state `save_result` hands back to the workflow engine
always has status `"completed"` or `"error"` — never `"next_case"` — so the
conditional edge installed by `create_execution_graph` always selects `END`
and never drives the per-case loop.  The per-case advance happens *inside*
the node: `save_result` itself builds the intermediate state with
`status = "next_case"` and index `i+1` and immediately feeds it to
`parse_command` (see the definition of `save_result`), returning that
attempt's outcome instead of the intermediate state. -/
theorem C2_save_result_never_next_case_amended (env : ExecEnv) (db : Db) (st : ExecState) :
    ((save_result env db st).1.status = "completed" ∨
      (save_result env db st).1.status = "error") ∧
    execution_edge_selector (save_result env db st).1 = "end" := by
  have hcont : ∀ db1, (save_result_continue env db1 st).1.status = "completed" ∨
      (save_result_continue env db1 st).1.status = "error" := by
    intro db1
    unfold save_result_continue
    split
    · dsimp only
      split
      · right; rfl
      · rename_i ns hp
        split
        · rename_i hns
          exact absurd (parse_command_ok_status env _ ns hp) (by simp [hns])
        · right
          exact parse_command_ok_status env _ ns hp
    · left; rfl
  have hmain : (save_result env db st).1.status = "completed" ∨
      (save_result env db st).1.status = "error" := by
    unfold save_result
    split
    · right; rfl
    · rename_i er heq
      dsimp only
      cases hupd : update_test_case_status db st.case_id
          (if er.success then "completed" else "failed")
          (save_raw_output_text er.all_results) with
      | error e =>
        simp only [hupd]
        right; rfl
      | ok db1 =>
        simp only [hupd]
        exact hcont db1
  refine ⟨hmain, ?_⟩
  rcases hmain with h | h <;> simp [execution_edge_selector, h]

/-- Environment of the C2/C6 concrete runs: transport replies are empty and
successful, the container-name and test-data rows exist. -/
def exEnv : ExecEnv where
  callTool := fun _ => .ok {}
  containerNameRow := some "algotest_T1"
  testDataRow := fun _ => some "data/Images/000001.jpg"

/-- A two-case execution state whose first case has just executed and failed. -/
def exState : ExecState where
  task_id := "T1"
  case_id := some "TC1"
  test_cases := [
    { case_id := some "TC1", input_data := some (.obj "n" "d" "p" "step1") },
    { case_id := some "TC2", input_data := some (.obj "n" "d" "p" "step2") }]
  current_case_index := 0
  execution_result := some {
    success := false
    all_results := [{
      result := { success := false, error := "boom", full_output := "STDOUT:\nboom\n" }
      full_output := "STDOUT:\nboom\n" }]
    fail_count := 1 }

/-- C2 counterexample: a concrete run — two cases, the first already executed
(and failed, so the store write is the no-op `"failed"` path), container and
test-data rows present — after which `save_result` returns status `"error"`
(the internal `parse_command` call raised `UnboundLocalError`, caught by the
node), not the `"next_case"` the claim asserts, and the engine edge therefore
selects `END`. -/
theorem C2_save_result_counterexample :
    (save_result exEnv {} exState).1.status = "error" ∧
    (save_result exEnv {} exState).1.status ≠ "next_case" ∧
    execution_edge_selector (save_result exEnv {} exState).1 = "end" := by
  exact ⟨rfl, by decide, rfl⟩

/-- C6 (corrected): the other Execution nodes do catch their own exceptions —
`setup_docker_for_workflow`, `load_test_cases` and `execute_command` return a
state for *every* environment and input state (internal failures become
status `"error"` states), and `save_result` is total by the same catch-all —
but `parse_command` is the exception the claim misses (see the
counterexample). -/
theorem C6_nodes_translate_exceptions_amended (env : ExecEnv) (st : ExecState) :
    (∃ s, setup_docker_for_workflow env st = .ok s) ∧
    (∃ s, load_test_cases env st = .ok s) ∧
    (∃ s, execute_command env st = .ok s) := by
  refine ⟨?_, ?_, ?_⟩
  · unfold setup_docker_for_workflow
    split
    · exact ⟨_, rfl⟩
    · exact ⟨_, rfl⟩
  · unfold load_test_cases
    split
    · exact ⟨_, rfl⟩
    · exact ⟨_, rfl⟩
  · unfold execute_command
    split
    · exact ⟨_, rfl⟩
    · exact ⟨_, rfl⟩

/-- C6 counterexample: `parse_command` on a state with an empty test-case
list lets its `ValueError` propagate to the engine (the raise at line 628 is
outside any `try`), instead of returning a status `"error"` state with the
message appended to `errors`. -/
theorem C6_parse_command_raises_counterexample :
    parse_command { callTool := fun _ => .ok {} } { task_id := "T1" } =
      .error (.valueError "执行状态中没有测试用例") := rfl

/-- C3 (code_bug): `update_test_case_status` called with status `"failed"`
leaves the store exactly as it was, for every store, case id and result
payload — `TestCase` has no status column and only the `"completed"` branch
touches `TestResult` — so a failed case is never marked failed and its raw
error text is never recorded. -/
theorem C3_failed_status_writes_nothing (db : Db) (case_id : Option String)
    (result : String) :
    update_test_case_status db case_id "failed" result = .ok db := by
  unfold update_test_case_status
  split
  · rfl
  · have hne : ("failed" == "completed") = false := by decide
    rw [hne]
    simp

/-- The case-insert loop only ever appends to `cases` and touches neither
`tasks` nor `results`, whether it finishes or aborts on a failed insert. -/
theorem insert_cases_extends (tid : String) (cs : List GenCase) :
    ∀ db : Db, db.tasks = (insert_cases db tid cs).1.tasks ∧
      db.cases <+: (insert_cases db tid cs).1.cases ∧
      db.results = (insert_cases db tid cs).1.results := by
  induction cs with
  | nil => intro db; exact ⟨rfl, List.prefix_refl _, rfl⟩
  | cons c rest ih =>
    intro db
    unfold insert_cases
    cases hc : create_test_case db (analysis_case_row tid c) with
    | error e => exact ⟨rfl, List.prefix_refl _, rfl⟩
    | ok db' =>
      have hdb' : db' = { db with cases := db.cases ++ [analysis_case_row tid c] } := by
        unfold create_test_case at hc
        split at hc
        · simp at hc
        · cases hc; rfl
      rcases ih db' with ⟨h1, h2, h3⟩
      refine ⟨?_, ?_, ?_⟩
      · rw [← h1, hdb']
      · refine List.IsPrefix.trans ?_ h2
        rw [hdb']
        exact ⟨[analysis_case_row tid c], rfl⟩
      · rw [← h3, hdb']

/-- C4 (corrected): `save_to_database` is *not* atomic — `create_test_task`
and each `create_test_case` commit in their own sessions — but it only ever
ends in status `"saved"` or `"error"`, and the store only grows: the prior
tasks and cases stay as a prefix and the results table is untouched, so an
error outcome does **not** roll earlier writes back (the counterexample
shows a failing run that leaves the new task and the first case behind). -/
theorem C4_save_to_database_not_atomic_amended (db : Db) (st : AnalysisState) :
    ((save_to_database db st).1.status = "saved" ∨
      (save_to_database db st).1.status = "error") ∧
    db.tasks <+: (save_to_database db st).2.tasks ∧
    db.cases <+: (save_to_database db st).2.cases ∧
    db.results = (save_to_database db st).2.results := by
  unfold save_to_database
  split
  · exact ⟨Or.inr rfl, List.prefix_refl _, List.prefix_refl _, rfl⟩
  · cases ht : create_test_task db
        { task_id := st.task_id, requirement_doc := st.pdf_content.getD ""
          algorithm_image := st.algorithm_image, status := "created" } with
    | error e =>
      exact ⟨Or.inr rfl, List.prefix_refl _, List.prefix_refl _, rfl⟩
    | ok db1 =>
      dsimp only
      have hdb1 : db1 = { db with tasks := db.tasks ++
          [{ task_id := st.task_id, requirement_doc := st.pdf_content.getD ""
             algorithm_image := st.algorithm_image, status := "created" }] } := by
        unfold create_test_task at ht
        split at ht
        · simp at ht
        · cases ht; rfl
      rcases insert_cases_extends st.task_id st.test_cases db1 with ⟨h1, h2, h3⟩
      cases hin : insert_cases db1 st.task_id st.test_cases with
      | mk db2 exc =>
        rw [hin] at h1 h2 h3
        rw [hdb1] at h1 h2 h3
        dsimp only at h1 h2 h3
        cases exc with
        | none =>
          refine ⟨Or.inl rfl, ?_, ?_, ?_⟩
          · show db.tasks <+: db2.tasks
            rw [← h1]
            exact List.prefix_append _ _
          · exact h2
          · exact h3
        | some e =>
          refine ⟨Or.inr rfl, ?_, ?_, ?_⟩
          · show db.tasks <+: db2.tasks
            rw [← h1]
            exact List.prefix_append _ _
          · exact h2
          · exact h3

/-- The analysis state of the C4 counterexample: two generated cases carrying
the same id `"TC1"`, so the second insert violates the unique constraint. -/
def dupState : AnalysisState where
  task_id := "T1"
  algorithm_image := some "img:v1"
  test_cases := [
    { id := "TC1", name := "case one", steps := "run A" },
    { id := "TC1", name := "case two", steps := "run B" }]

/-- C4 counterexample: on an empty store, saving a task with two cases whose
second insert fails leaves the node in status `"error"` with the store
*changed*: the task row and the first case row are still there — not the
claimed "none of the rows appear". -/
theorem C4_save_to_database_counterexample :
    (save_to_database {} dupState).1.status = "error" ∧
    (save_to_database {} dupState).2 ≠ ({} : Db) ∧
    (save_to_database {} dupState).2.tasks.length = 1 ∧
    (save_to_database {} dupState).2.cases.length = 1 := by
  exact ⟨rfl, by decide, rfl, rfl⟩

/-- C5 (code_bug): every upload of a PDF — any store, any content, any hash
function — ends in the HTTP 500 of the endpoint's exception handler, because
the dedup query of routes.py line 136 reads `TestTask.document_hash` and the
`TestTask` class (database.py lines 33-50, `testTaskColumns`) has no such
attribute; no row is read or written and no dedup ever happens. -/
theorem C5_upload_document_always_500 (md5Hex : List Nat → String) (db : Db)
    (content : List Nat) :
    upload_document md5Hex db "f.pdf" content =
      .error (500, "文档上传异常: type object 'TestTask' has no attribute 'document_hash'") := by
  unfold upload_document
  norm_num [endsWithStr, pyLower]
  rw [if_pos (by decide), dif_neg (by decide)]

/-- On a non-empty `label_files` list the node takes its normal return path
(lines 943-949): the result is `read_contents_result` of some contents and
some heuristic verdict. -/
theorem read_contents_shape (env : SelEnv) (cur : Nat) (st : SelState)
    (h : st.label_files ≠ []) :
    ∃ fc b cur2, read_label_file_contents env cur st = (read_contents_result st fc b, cur2) := by
  have hne : st.label_files.isEmpty = false := by
    cases hl : st.label_files with
    | nil => exact absurd hl h
    | cons a l => rfl
  unfold read_label_file_contents
  rw [hne]
  exact ⟨_, _, _, rfl⟩

/-- C7, amended: the 3-attempt bound holds only on the normal path.  If the
state entering the `read_label_file_contents` self-loop has a *non-empty*
`label_files` list and `attempt_count < 3`, the node executes at most
`3 - attempt_count` times, and (given enough engine fuel) the loop exits
either towards `get_test_cases` with `label_content_ready = true` or to END
with status `"label_content_failed"`.  (The empty-list error path, exercised
by the counterexample, voids the bound.) -/
theorem C7_read_loop_bound_amended (env : SelEnv) (fuel : Nat) :
    ∀ (cur : Nat) (st : SelState), st.label_files ≠ [] → st.attempt_count < 3 →
      (run_read_loop env fuel cur st).2.2 + st.attempt_count ≤ 3 ∧
      (3 ≤ fuel + st.attempt_count →
        ((run_read_loop env fuel cur st).1.label_content_ready = true ∧
           selection_edge_from_read (run_read_loop env fuel cur st).1 = "get_test_cases") ∨
        ((run_read_loop env fuel cur st).1.status = "label_content_failed" ∧
           selection_edge_from_read (run_read_loop env fuel cur st).1 = "END")) := by
  induction fuel with
  | zero =>
    intro cur st h hlt
    refine ⟨by simp [run_read_loop]; omega, fun hf => absurd hf (by simp; omega)⟩
  | succ fuel ih =>
    intro cur st h hlt
    obtain ⟨fc, b, cur2, hr⟩ := read_contents_shape env cur st h
    simp only [run_read_loop]
    rw [hr]
    dsimp only
    by_cases hc : selection_edge_from_read (read_contents_result st fc b) =
        "read_label_file_contents"
    · rw [if_pos hc]
      cases b with
      | true =>
        exfalso
        have : selection_edge_from_read (read_contents_result st fc true) =
            "get_test_cases" := rfl
        rw [this] at hc
        exact absurd hc (by decide)
      | false =>
        have hlt2 : st.attempt_count + 1 < 3 := by
          by_contra hge
          have hedge : selection_edge_from_read (read_contents_result st fc false) = "END" := by
            unfold selection_edge_from_read
            rw [if_neg (by simp [read_contents_result]), if_pos (by
              show 3 ≤ st.attempt_count + 1
              omega)]
          rw [hedge] at hc
          exact absurd hc (by decide)
        obtain ⟨ihc, ihe⟩ := ih cur2 (read_contents_result st fc false) h hlt2
        have ha : (read_contents_result st fc false).attempt_count = st.attempt_count + 1 := rfl
        rw [ha] at ihc ihe
        refine ⟨?_, fun hf => ?_⟩
        · dsimp only
          omega
        · exact ihe (by omega)
    · rw [if_neg hc]
      refine ⟨by dsimp only; omega, fun _ => ?_⟩
      cases b with
      | true => exact Or.inl ⟨rfl, rfl⟩
      | false =>
        have hge : 3 ≤ st.attempt_count + 1 := by
          by_contra hlt2
          apply hc
          unfold selection_edge_from_read
          rw [if_neg (by simp [read_contents_result]),
            if_neg (by
              show ¬ 3 ≤ st.attempt_count + 1
              omega)]
        refine Or.inr ⟨rfl, ?_⟩
        unfold selection_edge_from_read
        rw [if_neg (by simp [read_contents_result]), if_pos (by
          show 3 ≤ st.attempt_count + 1
          omega)]

/-- A state entering the read loop with one listed label file after the first
listing attempt. -/
def stW : SelState :=
  { task_id := "T", label_files := ["a.xml"], attempt_count := 1,
    status := "label_files_ready" }

/-- A sandbox whose every command returns a fixed short reply. -/
def envW : SelEnv := ⟨fun _ => "ok"⟩

theorem C7_read_loop_bound_amended_witness :
    stW.label_files ≠ [] ∧ stW.attempt_count < 3 ∧
    ((run_read_loop envW 5 0 stW).2.2 + stW.attempt_count ≤ 3 ∧
     (3 ≤ 5 + stW.attempt_count →
       ((run_read_loop envW 5 0 stW).1.label_content_ready = true ∧
          selection_edge_from_read (run_read_loop envW 5 0 stW).1 = "get_test_cases") ∨
       ((run_read_loop envW 5 0 stW).1.status = "label_content_failed" ∧
          selection_edge_from_read (run_read_loop envW 5 0 stW).1 = "END"))) :=
  ⟨by decide, by decide, C7_read_loop_bound_amended envW 5 0 stW (by decide) (by decide)⟩

/-- A sandbox whose every command prints `hello world`: the listing is neither
recognised as content nor parseable as a file list. -/
def envHello : SelEnv := ⟨fun _ => "hello world"⟩

/-- The state after the `list_label_files` node under that sandbox:
`label_files = []`, `attempt_count = 1`, not ready. -/
def stHello : SelState := (list_label_files envHello 0 { task_id := "T1" }).1

/-- C7 is false as stated: under the `hello world` sandbox the workflow
routes `list_label_files → read_label_file_contents`, and the read node —
hitting its empty-list `ValueError` path, which never touches
`attempt_count` — executes 10 times in 10 engine steps (and so runs a 4th
time), because the catch-all handler of lines 950-957 returns the state with
`attempt_count` unchanged while the edge of lines 1149-1160 keeps looping. -/
theorem C7_read_loop_counterexample :
    selection_edge_from_list stHello = "read_label_file_contents" ∧
    (run_read_loop envHello 10 1 stHello).2.2 = 10 := by
  exact ⟨rfl, rfl⟩

end Algotest
